import Mathlib

/-!
Verification of the `wanglib` Tektronix TDS3000 oscilloscope driver
(`wanglib/instruments/tektronix.py`).

The driver talks to an external bus object (write / read / ask / readall).
We embed the bus as an explicit state record: a buffer of pending input
bytes, a transport model (`respond` gives the bytes the instrument makes
available in response to a written command, `askResp` the reply to an
`ask` query, `readsAll` whether an unsized `read()` returns everything
(GPIB) or a single byte (RS-232)), plus logs of the `write` and `ask`
commands issued.  Python byte strings are `List Char` / `String` with
each `Char` holding one byte value; machine floats are modelled as exact
rationals `ℚ`.
-/

namespace Wanglib

/-- Errors raised by the driver or by library calls it makes:
`instrumentError` models `wanglib.util.InstrumentError`, `valueError` and
`typeError` model the Python exceptions of the same names, and `blocked`
models a sized bus read that cannot complete because fewer bytes than
requested are available (the Python code would block). -/
inductive Err where
  | instrumentError (msg : String)
  | valueError (msg : String)
  | typeError (msg : String)
  | blocked
deriving DecidableEq

/-- State of the external bus object handed to the driver. -/
structure Bus where
  /-- Bytes buffered on the bus, not yet read. -/
  input : List Char
  /-- Transport model: bytes the instrument appends to `input` in
  response to a written command. -/
  respond : String → List Char
  /-- Transport model: the reply returned by `ask` for a query. -/
  askResp : String → String
  /-- `true` when an unsized `read()` returns everything available
  (GPIB); `false` when it returns a single byte (RS-232). -/
  readsAll : Bool
  /-- Log of commands sent with `write`, in order. -/
  writes : List String
  /-- Log of queries sent with `ask`, in order. -/
  asks : List String

/-- `bus.readall()`: discard any pending unread input. -/
def Bus.readall (s : Bus) : Bus :=
  { s with input := [] }

/-- `bus.write(cmd)`: log the command; the instrument's response bytes
become available on the input buffer. -/
def Bus.write (s : Bus) (cmd : String) : Bus :=
  { s with writes := s.writes ++ [cmd], input := s.input ++ s.respond cmd }

/-- `bus.read()` with no size: returns everything available (GPIB) or a
single byte (RS-232), per the comment at `tektronix.py:52-53`. -/
def Bus.read (s : Bus) : String × Bus :=
  if s.readsAll then
    (String.mk s.input, { s with input := [] })
  else
    (String.mk (s.input.take 1), { s with input := s.input.drop 1 })

/-- `bus.read(n)`: read exactly `n` bytes, blocking (`none`) when fewer
are available. -/
def Bus.readN (s : Bus) (n : Nat) : Option (String × Bus) :=
  if n ≤ s.input.length then
    some (String.mk (s.input.take n), { s with input := s.input.drop n })
  else
    none

/-- `bus.ask(cmd)`: write a query and return its reply. -/
def Bus.ask (s : Bus) (cmd : String) : String × Bus :=
  (s.askResp cmd, { s with asks := s.asks ++ [cmd] })

/-- Python whitespace characters recognised by `str.rstrip()`. -/
def isPySpace (c : Char) : Bool :=
  c = ' ' || c = '\t' || c = '\n' || c = '\r' || c = Char.ofNat 11 || c = Char.ofNat 12

/-- Python `str.rstrip()`: drop trailing whitespace. -/
def pyRstrip (s : String) : String :=
  String.mk ((s.toList.reverse.dropWhile isPySpace).reverse)

/-- Value of a nonempty all-digit character list, most significant first. -/
def digitsVal (ds : List Char) : Option Nat :=
  if ds ≠ [] && ds.all (·.isDigit) then
    some (ds.foldl (fun a c => a * 10 + (c.toNat - 48)) 0)
  else
    none

/-- Python `int(s)`: strip surrounding whitespace, optional sign, then
decimal digits; any other shape raises `ValueError` (`none`). -/
def pyInt (s : String) : Option Int :=
  let cs := ((s.toList.dropWhile isPySpace).reverse.dropWhile isPySpace).reverse
  match cs with
  | '-' :: ds => (digitsVal ds).map (fun n => -(n : Int))
  | '+' :: ds => (digitsVal ds).map (fun n => (n : Int))
  | ds => (digitsVal ds).map (fun n => (n : Int))

/-- Big-endian value of a byte list (each `Char` one byte). -/
def bytesBE (bs : List Char) : Nat :=
  bs.foldl (fun a c => a * 256 + c.toNat) 0

/-- Two's-complement reading of a `w`-byte unsigned value. -/
def toSigned (w : Nat) (u : Nat) : Int :=
  if u < 2 ^ (8 * w - 1) then (u : Int) else (u : Int) - 2 ^ (8 * w)

/-- Decode one sample of `w` bytes: big-endian when `big`, two's
complement when `signed` (models one element of `numpy.fromstring`). -/
def decodeSample (big signed : Bool) (w : Nat) (bs : List Char) : Int :=
  let u := bytesBE (if big then bs else bs.reverse)
  if signed then toSigned w u else (u : Int)

/-- The big-endian two's-complement 16-bit integer encoded by two bytes. -/
def int16BE (c0 c1 : Char) : Int :=
  let u := c0.toNat * 256 + c1.toNat
  if u < 32768 then (u : Int) else (u : Int) - 65536

/-- Split a byte list into consecutive chunks of `w` bytes. -/
def chunksOf (w : Nat) (data : List Char) : List (List Char) :=
  if h : w = 0 ∨ data = [] then [] else
    data.take w :: chunksOf w (data.drop w)
termination_by data.length
decreasing_by
  simp only [not_or] at h
  have hw : 0 < w := Nat.pos_of_ne_zero h.1
  have hd : 0 < data.length := List.length_pos.mpr h.2
  simpa using Nat.sub_lt hd hw

/-- Models `numpy` parsing of the element-size suffix of a dtype string
such as `'>i2'`: the valid fixed integer sizes are 1, 2, 4 and 8 bytes;
anything else raises `TypeError` (`none`). -/
def dtypeWidth (s : String) : Option Nat :=
  if s = "1" then some 1
  else if s = "2" then some 2
  else if s = "4" then some 4
  else if s = "8" then some 8
  else none

/-- Lines 63-67 of `tektronix.py`: build the dtype string from the three
preamble values (`'>'` iff `BYT_OR == 'MSB'`, `'i'` iff
`BN_FMT == 'RI'` else `'u'`, width suffix `BYT_NR`) and reinterpret the
raw data as fixed-width integers with `numpy.fromstring`, which rejects
data whose length is not a multiple of the element size. -/
def decodeCurve (byt_or bn_fmt byt_nr : String) (data : String) : Except Err (List Int) :=
  let big := decide (byt_or = "MSB")
  let signed := decide (bn_fmt = "RI")
  match dtypeWidth byt_nr with
  | none => .error (.typeError "data type not understood")
  | some w =>
    if data.toList.length % w = 0 then
      .ok ((chunksOf w data.toList).map (decodeSample big signed w))
    else
      .error (.valueError "string size must be a multiple of element size")

/-- The `TDS3000._Wfmpre` object: a `dict` subclass holding the bus
reference; its stored dictionary contents are never written to. -/
structure Wfmpre where
  /-- Reference id of the bus object stored by `__init__`. -/
  bus : Nat
  /-- The inherited `dict` contents (never populated by the driver). -/
  contents : List (String × String)
deriving DecidableEq

/-- `_Wfmpre.__getitem__`: ask `WFMP:<key>?` on the bus and return the
reply with trailing whitespace stripped; nothing is stored.  Returns the
value, the bus state, and the (unchanged) preamble object. -/
def Wfmpre.getitem (pre : Wfmpre) (s : Bus) (key : String) :
    String × Bus × Wfmpre :=
  let (r, s') := s.ask ("WFMP:" ++ key ++ "?")
  (pyRstrip r, s', pre)

/-- The `TDS3000` driver object: holds the bus reference and the
preamble view created in `__init__`. -/
structure TDS3000 where
  /-- Reference id of the bus object. -/
  bus : Nat
  /-- The `_Wfmpre` view over the same bus. -/
  wfmpre : Wfmpre
deriving DecidableEq

/-- `TDS3000.__init__` with an externally supplied bus (identified by a
reference id; the bus state itself is passed to each operation). -/
def TDS3000.init (busId : Nat) : TDS3000 :=
  { bus := busId, wfmpre := { bus := busId, contents := [] } }

/-- Shared tail of `get_curve`: query the three waveform-preamble
parameters live and decode `data` accordingly. -/
def TDS3000.decodeWithPreamble (self : TDS3000) (s : Bus) (data : String) :
    Except Err (List Int) × Bus × TDS3000 :=
  let (byt_or, s1, p1) := self.wfmpre.getitem s "BYT_OR"
  let (bn_fmt, s2, p2) := { self with wfmpre := p1 }.wfmpre.getitem s1 "BN_FMT"
  let (byt_nr, s3, p3) := { self with wfmpre := p2 }.wfmpre.getitem s2 "BYT_NR"
  (decodeCurve byt_or bn_fmt byt_nr data, s3, { self with wfmpre := p3 })

/-- `TDS3000.get_curve` (lines 43-67): flush the bus, send `CURV?`, read
one token; on `'#'` parse the length-prefixed binary block (digit-count
byte, length-field bytes, payload, trailing newline); on any other
single byte raise `InstrumentError`; otherwise treat the token itself as
the raw data.  Finally decode per the live preamble. -/
def TDS3000.get_curve (self : TDS3000) (s0 : Bus) :
    Except Err (List Int) × Bus × TDS3000 :=
  let s1 := s0.readall
  let s2 := s1.write "CURV?"
  let (result, s3) := s2.read
  if result = "#" then
    match s3.readN 1 with
    | none => (.error .blocked, s3, self)
    | some (mstr, s4) =>
      match pyInt mstr with
      | none => (.error (.valueError ("invalid literal for int(): " ++ mstr)), s4, self)
      | some meta_len =>
        match s4.readN meta_len.toNat with
        | none => (.error .blocked, s4, self)
        | some (dstr, s5) =>
          match pyInt dstr with
          | none => (.error (.valueError ("invalid literal for int(): " ++ dstr)), s5, self)
          | some data_len =>
            match s5.readN data_len.toNat with
            | none => (.error .blocked, s5, self)
            | some (data, s6) =>
              match s6.readN 1 with
              | none => (.error .blocked, s6, self)
              | some (_, s7) => self.decodeWithPreamble s7 data
  else if result.length = 1 then
    (.error (.instrumentError ("Unknown first byte: " ++ result)), s3, self)
  else
    self.decodeWithPreamble s3 result

/-- Round half away from zero to an integer (for nonnegative input). -/
def rhalfAway (x : ℚ) : Int :=
  ⌊x + 1 / 2⌋

/-- Modelled from the spec: `wanglib.util.sciround` is imported by
`tektronix.py` but its source is not in the repository snapshot.  Per
the spec it rounds to `sig` significant digits using
round-half-away-from-zero on the scientific-notation mantissa; the
decimal exponent of the mantissa is `Int.log 10` of the magnitude. -/
def sciround (q : ℚ) (sig : Nat) : ℚ :=
  if q = 0 then 0 else
  let sgn : ℚ := if q < 0 then -1 else 1
  let a := |q|
  let shift : Int := (sig : Int) - 1 - Int.log 10 a
  sgn * (rhalfAway (a * (10 : ℚ) ^ shift) : ℚ) * (10 : ℚ) ^ (-shift)

/-- Two-digit zero-padded rendering of an exponent magnitude. -/
def pad2 (n : Nat) : String :=
  if n < 10 then "0" ++ toString n else toString n

/-- Python `'%.0E' % q`: one mantissa digit, `E`, explicit exponent sign
and an at-least-two-digit exponent (e.g. `2E-03`, `1E+01`).  Models the
C `printf` scientific format at zero mantissa precision, with carry when
the mantissa rounds up to 10. -/
def pyFmtE0 (q : ℚ) : String :=
  if q = 0 then "0E+00" else
  let a := |q|
  let e := Int.log 10 a
  let d := rhalfAway (a / (10 : ℚ) ^ e)
  let d1 : Int := if d = 10 then 1 else d
  let e1 : Int := if d = 10 then e + 1 else e
  (if q < 0 then "-" else "") ++ toString d1 ++ "E" ++
    (if e1 < 0 then "-" else "+") ++ pad2 e1.natAbs

/-- `TDS3000._acceptable_timedivs` (lines 78-87): the 1-2-4 decade
sequence from 10 seconds down to 1 nanosecond, 31 values. -/
def acceptable_timedivs : List ℚ :=
  [10, 4, 2, 1,
   4/10, 2/10, 1/10,
   4/100, 2/100, 1/100,
   4/1000, 2/1000, 1/1000,
   4/10000, 2/10000, 1/10000,
   4/100000, 2/100000, 1/100000,
   4/1000000, 2/1000000, 1/1000000,
   4/10000000, 2/10000000, 1/10000000,
   4/100000000, 2/100000000, 1/100000000,
   4/1000000000, 2/1000000000, 1/1000000000]

/-- Python `str()` of the `_acceptable_timedivs` tuple, as interpolated
into the `InstrumentError` message (element `repr`s: integers plain,
floats decimal down to `1e-4`, exponent notation below). -/
def timedivsStr : String :=
  "(10, 4, 2, 1, 0.4, 0.2, 0.1, 0.04, 0.02, 0.01, 0.004, 0.002, 0.001, " ++
  "0.0004, 0.0002, 0.0001, 4e-05, 2e-05, 1e-05, 4e-06, 2e-06, 1e-06, " ++
  "4e-07, 2e-07, 1e-07, 4e-08, 2e-08, 1e-08, 4e-09, 2e-09, 1e-09)"

/-- `TDS3000.set_timediv` (lines 89-104): round the requested value to
one significant digit; if the result is an acceptable timediv, write
`HOR:MAI:SCA %.0E`; otherwise raise `InstrumentError` listing the
acceptable tuple, touching the bus not at all. -/
def TDS3000.set_timediv (self : TDS3000) (toVal : ℚ) (s : Bus) :
    Except Err Unit × Bus × TDS3000 :=
  let t := sciround toVal 1
  if t ∈ acceptable_timedivs then
    (.ok (), s.write ("HOR:MAI:SCA " ++ pyFmtE0 t), self)
  else
    (.error (.instrumentError ("Timediv not in " ++ timedivsStr)), s, self)

/-- Exponent part of a float literal: optional sign then digits. -/
def pyIntExp (cs : List Char) : Option Int :=
  match cs with
  | '-' :: ds => (digitsVal ds).map (fun n => -(n : Int))
  | '+' :: ds => (digitsVal ds).map (fun n => (n : Int))
  | ds => (digitsVal ds).map (fun n => (n : Int))

/-- Value of a digit list, most significant first (0 when empty). -/
def digitsNat (ds : List Char) : Nat :=
  ds.foldl (fun a c => a * 10 + (c.toNat - 48)) 0

/-- Lexical part of Python `float(s)`: strip surrounding whitespace,
optional sign, integer digits, optional `.` and fraction digits,
optional `e`/`E` exponent with optional sign.  Returns
(negative?, integer digits, fraction digits, exponent); any other shape
raises `ValueError` (`none`). -/
def pyFloatParse (s : String) : Option (Bool × List Char × List Char × Int) :=
  let cs := ((s.toList.dropWhile isPySpace).reverse.dropWhile isPySpace).reverse
  let (neg, cs) : Bool × List Char :=
    match cs with
    | '-' :: t => (true, t)
    | '+' :: t => (false, t)
    | t => (false, t)
  let ip := cs.takeWhile (·.isDigit)
  let cs := cs.dropWhile (·.isDigit)
  let (fp, cs) : List Char × List Char :=
    match cs with
    | '.' :: t => (t.takeWhile (·.isDigit), t.dropWhile (·.isDigit))
    | t => ([], t)
  if ip = [] ∧ fp = [] then none else
  match cs with
  | [] => some (neg, ip, fp, 0)
  | 'e' :: t => (pyIntExp t).map (fun e => (neg, ip, fp, e))
  | 'E' :: t => (pyIntExp t).map (fun e => (neg, ip, fp, e))
  | _ => none

/-- Numeric value of a parsed float literal. -/
def pyFloatVal (neg : Bool) (ip fp : List Char) (e : Int) : ℚ :=
  (if neg then -1 else 1) *
    ((digitsNat ip : ℚ) + (digitsNat fp : ℚ) / (10 : ℚ) ^ fp.length) * (10 : ℚ) ^ e

/-- Python `float(s)` on the strings the scope returns. -/
def pyFloat (s : String) : Option ℚ :=
  (pyFloatParse s).map (fun p => pyFloatVal p.1 p.2.1 p.2.2.1 p.2.2.2)

/-- `TDS3000.get_timediv` (lines 69-76): ask `HOR:MAI:SCA?` and parse
the stripped reply as a float. -/
def TDS3000.get_timediv (self : TDS3000) (s : Bus) :
    Except Err ℚ × Bus × TDS3000 :=
  let (r, s1) := s.ask "HOR:MAI:SCA?"
  match pyFloat (pyRstrip r) with
  | some q => (.ok q, s1, self)
  | none => (.error (.valueError ("could not convert string to float: " ++ r)), s1, self)

end Wanglib

/-!  Helper lemmas: evaluation of `Int.log`-based rounding and formatting
on concrete rationals, and the fixpoint property of `sciround` on the
accepted timediv values. -/

namespace Wanglib

lemma char_toNat_inj {x y : Char} (h : x.toNat = y.toNat) : x = y := by
  apply Char.eq_of_val_eq
  apply UInt32.eq_of_val_eq
  exact Fin.ext h

lemma log10_eval {q : ℚ} {e : ℤ} (h0 : 0 < q) (h1 : (10:ℚ)^e ≤ q)
    (h2 : q < (10:ℚ)^(e+1)) : Int.log 10 q = e := by
  have h1a : ((10:ℕ):ℚ)^e ≤ q := by exact_mod_cast h1
  have h2a : q < ((10:ℕ):ℚ)^(e+1) := by exact_mod_cast h2
  have ha := (@Int.zpow_le_iff_le_log ℚ _ _ 10 (by norm_num) e q h0).mp h1a
  have hb := (@Int.lt_zpow_iff_log_lt ℚ _ _ 10 (by norm_num) (e+1) q h0).mp h2a
  omega

lemma sciround_eval {q : ℚ} {e m : ℤ} (h0 : 0 < q) (h1 : (10:ℚ)^e ≤ q)
    (h2 : q < (10:ℚ)^(e+1)) (hm : ⌊q * (10:ℚ)^(-e) + 1/2⌋ = m) :
    sciround q 1 = (m : ℚ) * (10:ℚ)^e := by
  have hlog : Int.log 10 q = e := log10_eval h0 h1 h2
  have hq0 : q ≠ 0 := ne_of_gt h0
  have hqneg : ¬ q < 0 := not_lt.mpr (le_of_lt h0)
  have he : ((1:ℕ):ℤ) - 1 - e = -e := by omega
  simp only [sciround, if_neg hq0, if_neg hqneg, abs_of_pos h0, hlog, rhalfAway, he, hm,
    neg_neg, one_mul]

lemma pyFmtE0_eval {q : ℚ} {e d : ℤ} (h0 : 0 < q) (h1 : (10:ℚ)^e ≤ q)
    (h2 : q < (10:ℚ)^(e+1)) (hd : ⌊q / (10:ℚ)^e + 1/2⌋ = d) (hd10 : d ≠ 10) :
    pyFmtE0 q = toString d ++ "E" ++ (if e < 0 then "-" else "+") ++ pad2 e.natAbs := by
  have hlog : Int.log 10 q = e := log10_eval h0 h1 h2
  have hq0 : q ≠ 0 := ne_of_gt h0
  have hqneg : ¬ q < 0 := not_lt.mpr (le_of_lt h0)
  simp only [pyFmtE0, if_neg hq0, if_neg hqneg, abs_of_pos h0, hlog, rhalfAway, hd,
    if_neg hd10]
  rfl

lemma sr_fix_0 : sciround (10 : ℚ) 1 = 10 := by
  have h := @sciround_eval (10) (1) (1) (by norm_num) (by norm_num) (by norm_num)
    (by norm_num [Int.floor_eq_iff])
  rw [h]; norm_num

lemma sr_fix_1 : sciround (4 : ℚ) 1 = 4 := by
  have h := @sciround_eval (4) (0) (4) (by norm_num) (by norm_num) (by norm_num)
    (by norm_num [Int.floor_eq_iff])
  rw [h]; norm_num

lemma sr_fix_2 : sciround (2 : ℚ) 1 = 2 := by
  have h := @sciround_eval (2) (0) (2) (by norm_num) (by norm_num) (by norm_num)
    (by norm_num [Int.floor_eq_iff])
  rw [h]; norm_num

lemma sr_fix_3 : sciround (1 : ℚ) 1 = 1 := by
  have h := @sciround_eval (1) (0) (1) (by norm_num) (by norm_num) (by norm_num)
    (by norm_num [Int.floor_eq_iff])
  rw [h]; norm_num

lemma sr_fix_4 : sciround (4/10 : ℚ) 1 = 4/10 := by
  have h := @sciround_eval (4/10) (-1) (4) (by norm_num) (by norm_num) (by norm_num)
    (by norm_num [Int.floor_eq_iff])
  rw [h]; norm_num

lemma sr_fix_5 : sciround (2/10 : ℚ) 1 = 2/10 := by
  have h := @sciround_eval (2/10) (-1) (2) (by norm_num) (by norm_num) (by norm_num)
    (by norm_num [Int.floor_eq_iff])
  rw [h]; norm_num

lemma sr_fix_6 : sciround (1/10 : ℚ) 1 = 1/10 := by
  have h := @sciround_eval (1/10) (-1) (1) (by norm_num) (by norm_num) (by norm_num)
    (by norm_num [Int.floor_eq_iff])
  rw [h]; norm_num

lemma sr_fix_7 : sciround (4/100 : ℚ) 1 = 4/100 := by
  have h := @sciround_eval (4/100) (-2) (4) (by norm_num) (by norm_num) (by norm_num)
    (by norm_num [Int.floor_eq_iff])
  rw [h]; norm_num

lemma sr_fix_8 : sciround (2/100 : ℚ) 1 = 2/100 := by
  have h := @sciround_eval (2/100) (-2) (2) (by norm_num) (by norm_num) (by norm_num)
    (by norm_num [Int.floor_eq_iff])
  rw [h]; norm_num

lemma sr_fix_9 : sciround (1/100 : ℚ) 1 = 1/100 := by
  have h := @sciround_eval (1/100) (-2) (1) (by norm_num) (by norm_num) (by norm_num)
    (by norm_num [Int.floor_eq_iff])
  rw [h]; norm_num

lemma sr_fix_10 : sciround (4/1000 : ℚ) 1 = 4/1000 := by
  have h := @sciround_eval (4/1000) (-3) (4) (by norm_num) (by norm_num) (by norm_num)
    (by norm_num [Int.floor_eq_iff])
  rw [h]; norm_num

lemma sr_fix_11 : sciround (2/1000 : ℚ) 1 = 2/1000 := by
  have h := @sciround_eval (2/1000) (-3) (2) (by norm_num) (by norm_num) (by norm_num)
    (by norm_num [Int.floor_eq_iff])
  rw [h]; norm_num

lemma sr_fix_12 : sciround (1/1000 : ℚ) 1 = 1/1000 := by
  have h := @sciround_eval (1/1000) (-3) (1) (by norm_num) (by norm_num) (by norm_num)
    (by norm_num [Int.floor_eq_iff])
  rw [h]; norm_num

lemma sr_fix_13 : sciround (4/10000 : ℚ) 1 = 4/10000 := by
  have h := @sciround_eval (4/10000) (-4) (4) (by norm_num) (by norm_num) (by norm_num)
    (by norm_num [Int.floor_eq_iff])
  rw [h]; norm_num

lemma sr_fix_14 : sciround (2/10000 : ℚ) 1 = 2/10000 := by
  have h := @sciround_eval (2/10000) (-4) (2) (by norm_num) (by norm_num) (by norm_num)
    (by norm_num [Int.floor_eq_iff])
  rw [h]; norm_num

lemma sr_fix_15 : sciround (1/10000 : ℚ) 1 = 1/10000 := by
  have h := @sciround_eval (1/10000) (-4) (1) (by norm_num) (by norm_num) (by norm_num)
    (by norm_num [Int.floor_eq_iff])
  rw [h]; norm_num

lemma sr_fix_16 : sciround (4/100000 : ℚ) 1 = 4/100000 := by
  have h := @sciround_eval (4/100000) (-5) (4) (by norm_num) (by norm_num) (by norm_num)
    (by norm_num [Int.floor_eq_iff])
  rw [h]; norm_num

lemma sr_fix_17 : sciround (2/100000 : ℚ) 1 = 2/100000 := by
  have h := @sciround_eval (2/100000) (-5) (2) (by norm_num) (by norm_num) (by norm_num)
    (by norm_num [Int.floor_eq_iff])
  rw [h]; norm_num

lemma sr_fix_18 : sciround (1/100000 : ℚ) 1 = 1/100000 := by
  have h := @sciround_eval (1/100000) (-5) (1) (by norm_num) (by norm_num) (by norm_num)
    (by norm_num [Int.floor_eq_iff])
  rw [h]; norm_num

lemma sr_fix_19 : sciround (4/1000000 : ℚ) 1 = 4/1000000 := by
  have h := @sciround_eval (4/1000000) (-6) (4) (by norm_num) (by norm_num) (by norm_num)
    (by norm_num [Int.floor_eq_iff])
  rw [h]; norm_num

lemma sr_fix_20 : sciround (2/1000000 : ℚ) 1 = 2/1000000 := by
  have h := @sciround_eval (2/1000000) (-6) (2) (by norm_num) (by norm_num) (by norm_num)
    (by norm_num [Int.floor_eq_iff])
  rw [h]; norm_num

lemma sr_fix_21 : sciround (1/1000000 : ℚ) 1 = 1/1000000 := by
  have h := @sciround_eval (1/1000000) (-6) (1) (by norm_num) (by norm_num) (by norm_num)
    (by norm_num [Int.floor_eq_iff])
  rw [h]; norm_num

lemma sr_fix_22 : sciround (4/10000000 : ℚ) 1 = 4/10000000 := by
  have h := @sciround_eval (4/10000000) (-7) (4) (by norm_num) (by norm_num) (by norm_num)
    (by norm_num [Int.floor_eq_iff])
  rw [h]; norm_num

lemma sr_fix_23 : sciround (2/10000000 : ℚ) 1 = 2/10000000 := by
  have h := @sciround_eval (2/10000000) (-7) (2) (by norm_num) (by norm_num) (by norm_num)
    (by norm_num [Int.floor_eq_iff])
  rw [h]; norm_num

lemma sr_fix_24 : sciround (1/10000000 : ℚ) 1 = 1/10000000 := by
  have h := @sciround_eval (1/10000000) (-7) (1) (by norm_num) (by norm_num) (by norm_num)
    (by norm_num [Int.floor_eq_iff])
  rw [h]; norm_num

lemma sr_fix_25 : sciround (4/100000000 : ℚ) 1 = 4/100000000 := by
  have h := @sciround_eval (4/100000000) (-8) (4) (by norm_num) (by norm_num) (by norm_num)
    (by norm_num [Int.floor_eq_iff])
  rw [h]; norm_num

lemma sr_fix_26 : sciround (2/100000000 : ℚ) 1 = 2/100000000 := by
  have h := @sciround_eval (2/100000000) (-8) (2) (by norm_num) (by norm_num) (by norm_num)
    (by norm_num [Int.floor_eq_iff])
  rw [h]; norm_num

lemma sr_fix_27 : sciround (1/100000000 : ℚ) 1 = 1/100000000 := by
  have h := @sciround_eval (1/100000000) (-8) (1) (by norm_num) (by norm_num) (by norm_num)
    (by norm_num [Int.floor_eq_iff])
  rw [h]; norm_num

lemma sr_fix_28 : sciround (4/1000000000 : ℚ) 1 = 4/1000000000 := by
  have h := @sciround_eval (4/1000000000) (-9) (4) (by norm_num) (by norm_num) (by norm_num)
    (by norm_num [Int.floor_eq_iff])
  rw [h]; norm_num

lemma sr_fix_29 : sciround (2/1000000000 : ℚ) 1 = 2/1000000000 := by
  have h := @sciround_eval (2/1000000000) (-9) (2) (by norm_num) (by norm_num) (by norm_num)
    (by norm_num [Int.floor_eq_iff])
  rw [h]; norm_num

lemma sr_fix_30 : sciround (1/1000000000 : ℚ) 1 = 1/1000000000 := by
  have h := @sciround_eval (1/1000000000) (-9) (1) (by norm_num) (by norm_num) (by norm_num)
    (by norm_num [Int.floor_eq_iff])
  rw [h]; norm_num

lemma sciround_mem_fix {v : ℚ} (hv : v ∈ acceptable_timedivs) : sciround v 1 = v := by
  simp only [acceptable_timedivs, List.mem_cons, List.not_mem_nil, or_false] at hv
  rcases hv with rfl|rfl|rfl|rfl|rfl|rfl|rfl|rfl|rfl|rfl|rfl|rfl|rfl|rfl|rfl|rfl|rfl|rfl|rfl|rfl|rfl|rfl|rfl|rfl|rfl|rfl|rfl|rfl|rfl|rfl|rfl
  exacts [sr_fix_0, sr_fix_1, sr_fix_2, sr_fix_3, sr_fix_4, sr_fix_5, sr_fix_6, sr_fix_7, sr_fix_8, sr_fix_9, sr_fix_10, sr_fix_11, sr_fix_12, sr_fix_13, sr_fix_14, sr_fix_15, sr_fix_16, sr_fix_17, sr_fix_18, sr_fix_19, sr_fix_20, sr_fix_21, sr_fix_22, sr_fix_23, sr_fix_24, sr_fix_25, sr_fix_26, sr_fix_27, sr_fix_28, sr_fix_29, sr_fix_30]

end Wanglib

/-!  Theorems for the specification claims. -/

namespace Wanglib

/-- C1: for every bus whose preamble answers are BYT_OR="MSB",
BN_FMT="RI", BYT_NR="2" and whose CURV? response is the block
`#` `1` `4` followed by 4 raw bytes encoding two big-endian signed
16-bit integers and a trailing newline, `get_curve` returns exactly
those two integers in that order, having consumed the digit-count byte,
the length-field bytes, the payload bytes and the trailing newline (the
final bus input is empty). -/
theorem curve_block_decode
    (inp : List Char) (resp : String → List Char) (askR : String → String)
    (w a : List String) (b0 b1 b2 b3 : Char)
    (hresp : resp "CURV?" = ['#', '1', '4', b0, b1, b2, b3, '\n'])
    (h0 : b0.toNat < 256) (h1 : b1.toNat < 256)
    (h2 : b2.toNat < 256) (h3 : b3.toNat < 256)
    (hor : askR "WFMP:BYT_OR?" = "MSB") (hfmt : askR "WFMP:BN_FMT?" = "RI")
    (hnr : askR "WFMP:BYT_NR?" = "2") (self : TDS3000) :
    TDS3000.get_curve self ⟨inp, resp, askR, false, w, a⟩ =
      (.ok [int16BE b0 b1, int16BE b2 b3],
       ⟨[], resp, askR, false, w ++ ["CURV?"],
        a ++ ["WFMP:BYT_OR?", "WFMP:BN_FMT?", "WFMP:BYT_NR?"]⟩, self) := by
  simp [TDS3000.get_curve, Bus.readall, Bus.write, Bus.read, Bus.readN, Bus.ask,
    TDS3000.decodeWithPreamble, Wfmpre.getitem, decodeCurve, dtypeWidth, pyInt, digitsVal,
    isPySpace, pyRstrip, chunksOf, decodeSample, bytesBE, toSigned, int16BE,
    hresp, hor, hfmt, hnr]

/-- Witness for C1 at a concrete bus: the bytes 200,3,1,2 decode to the
big-endian signed 16-bit integers -14333 and 258. -/
theorem curve_block_decode_witness :
    (Char.ofNat 200).toNat < 256 ∧
    TDS3000.get_curve (TDS3000.init 0)
      ⟨['x'],
       (fun c => if c = "CURV?" then
          ['#', '1', '4', Char.ofNat 200, Char.ofNat 3, Char.ofNat 1, Char.ofNat 2, '\n']
        else []),
       (fun q => if q = "WFMP:BYT_OR?" then "MSB"
                 else if q = "WFMP:BN_FMT?" then "RI"
                 else if q = "WFMP:BYT_NR?" then "2" else ""),
       false, [], []⟩ =
      (.ok [-14333, 258],
       ⟨[],
        (fun c => if c = "CURV?" then
           ['#', '1', '4', Char.ofNat 200, Char.ofNat 3, Char.ofNat 1, Char.ofNat 2, '\n']
         else []),
        (fun q => if q = "WFMP:BYT_OR?" then "MSB"
                  else if q = "WFMP:BN_FMT?" then "RI"
                  else if q = "WFMP:BYT_NR?" then "2" else ""),
        false, ["CURV?"],
        ["WFMP:BYT_OR?", "WFMP:BN_FMT?", "WFMP:BYT_NR?"]⟩, TDS3000.init 0) := by
  refine ⟨by decide, ?_⟩
  refine (curve_block_decode _ _ _ _ _ _ _ _ _ rfl (by decide) (by decide) (by decide)
    (by decide) rfl rfl rfl _).trans ?_
  rfl

end Wanglib

namespace Wanglib

/-- C2: for every value `v` in the fixed 31-element accepted set (the
1-2-4 decade sequence from 10 s down to 1 ns), `set_timediv v` issues
exactly one bus write, whose content is `HOR:MAI:SCA ` followed by `v`
in scientific notation with zero mantissa decimal digits (`%.0E`), and
raises no error. -/
theorem set_timediv_accepted_write {v : ℚ} (hv : v ∈ acceptable_timedivs)
    (self : TDS3000) (s : Bus) :
    TDS3000.set_timediv self v s =
      (.ok (), Bus.write s ("HOR:MAI:SCA " ++ pyFmtE0 v), self) := by
  have h := sciround_mem_fix hv
  simp only [TDS3000.set_timediv, h, if_pos hv]

/-- Witness for C2 at `v = 2e-3`: exactly one write, with content
`HOR:MAI:SCA 2E-03`. -/
theorem set_timediv_accepted_write_witness :
    (2/1000 : ℚ) ∈ acceptable_timedivs ∧
    TDS3000.set_timediv (TDS3000.init 0) (2/1000)
        ⟨[], fun _ => [], fun _ => "", false, [], []⟩ =
      (.ok (), ⟨[], fun _ => [], fun _ => "", false, ["HOR:MAI:SCA 2E-03"], []⟩,
       TDS3000.init 0) := by
  have hv : (2/1000 : ℚ) ∈ acceptable_timedivs := by norm_num [acceptable_timedivs]
  refine ⟨hv, ?_⟩
  rw [set_timediv_accepted_write hv]
  have hf : pyFmtE0 (2/1000 : ℚ) = "2E-03" := by
    have h := @pyFmtE0_eval (2/1000) (-3) 2 (by norm_num) (by norm_num) (by norm_num)
      (by norm_num [Int.floor_eq_iff]) (by norm_num)
    rw [h]; rfl
  simp [Bus.write, hf]

/-- Counterexample to C3 as stated: the claim lists 0.15 among the
values whose 1-significant-digit rounding falls outside the accepted
set, but `sciround 0.15 1 = 2e-1`, which is an accepted timediv, so
`set_timediv 0.15` raises no error and issues one write
(`HOR:MAI:SCA 2E-01`). -/
theorem set_timediv_015_no_error :
    sciround (15/100 : ℚ) 1 ∈ acceptable_timedivs ∧
    TDS3000.set_timediv (TDS3000.init 0) (15/100)
        ⟨[], fun _ => [], fun _ => "", false, [], []⟩ =
      (.ok (), ⟨[], fun _ => [], fun _ => "", false, ["HOR:MAI:SCA 2E-01"], []⟩,
       TDS3000.init 0) := by
  have hsr : sciround (15/100 : ℚ) 1 = 2/10 := by
    have h := @sciround_eval (15/100) (-1) 2 (by norm_num) (by norm_num) (by norm_num)
      (by norm_num [Int.floor_eq_iff])
    rw [h]; norm_num
  have hmem : (2/10 : ℚ) ∈ acceptable_timedivs := by norm_num [acceptable_timedivs]
  have hf : pyFmtE0 (2/10 : ℚ) = "2E-01" := by
    have h := @pyFmtE0_eval (2/10) (-1) 2 (by norm_num) (by norm_num) (by norm_num)
      (by norm_num [Int.floor_eq_iff]) (by norm_num)
    rw [h]; rfl
  constructor
  · rw [hsr]; exact hmem
  · simp only [TDS3000.set_timediv, hsr, if_pos hmem, hf]
    simp [Bus.write]

/-- C3 (amended: of the spec examples only 3 and 7 qualify; 0.15 rounds
to the accepted value 2e-1 and is accepted): for every value whose
1-significant-digit rounding is not a member of the accepted set,
`set_timediv` raises an `InstrumentError` whose message lists the full
accepted set, and issues zero bus writes (the bus state is returned
untouched). -/
theorem set_timediv_invalid_error {v : ℚ}
    (hv : sciround v 1 ∉ acceptable_timedivs) (self : TDS3000) (s : Bus) :
    TDS3000.set_timediv self v s =
      (.error (.instrumentError ("Timediv not in " ++ timedivsStr)), s, self) := by
  simp only [TDS3000.set_timediv, if_neg hv]

/-- Witness for the amended C3 at `v = 3`: an error naming the accepted
set, and an untouched bus. -/
theorem set_timediv_invalid_error_witness :
    sciround (3 : ℚ) 1 ∉ acceptable_timedivs ∧
    TDS3000.set_timediv (TDS3000.init 0) 3
        ⟨[], fun _ => [], fun _ => "", false, [], []⟩ =
      (.error (.instrumentError ("Timediv not in " ++ timedivsStr)),
       ⟨[], fun _ => [], fun _ => "", false, [], []⟩, TDS3000.init 0) := by
  have hsr : sciround (3 : ℚ) 1 = 3 := by
    have h := @sciround_eval 3 0 3 (by norm_num) (by norm_num) (by norm_num)
      (by norm_num [Int.floor_eq_iff])
    rw [h]; norm_num
  have hv : sciround (3 : ℚ) 1 ∉ acceptable_timedivs := by
    rw [hsr]; norm_num [acceptable_timedivs]
  exact ⟨hv, set_timediv_invalid_error hv _ _⟩

/-- C4: `set_timediv` rounds its argument to 1 significant digit with
round-half-away-from-zero on the scientific-notation mantissa before
validation: 0.00198 rounds to 2e-3 and is accepted (one write is sent
for 2e-3), and 9.6 rounds to 10 and is accepted. -/
theorem sciround_examples :
    sciround (198/100000 : ℚ) 1 = 2/1000 ∧ (2/1000 : ℚ) ∈ acceptable_timedivs ∧
    (∀ (self : TDS3000) (s : Bus), TDS3000.set_timediv self (198/100000) s =
      (.ok (), Bus.write s ("HOR:MAI:SCA " ++ pyFmtE0 (2/1000)), self)) ∧
    sciround (96/10 : ℚ) 1 = 10 ∧ (10 : ℚ) ∈ acceptable_timedivs ∧
    (∀ (self : TDS3000) (s : Bus), TDS3000.set_timediv self (96/10) s =
      (.ok (), Bus.write s ("HOR:MAI:SCA " ++ pyFmtE0 10), self)) := by
  have h1 : sciround (198/100000 : ℚ) 1 = 2/1000 := by
    have h := @sciround_eval (198/100000) (-3) 2 (by norm_num) (by norm_num) (by norm_num)
      (by norm_num [Int.floor_eq_iff])
    rw [h]; norm_num
  have h2 : sciround (96/10 : ℚ) 1 = 10 := by
    have h := @sciround_eval (96/10) 0 10 (by norm_num) (by norm_num) (by norm_num)
      (by norm_num [Int.floor_eq_iff])
    rw [h]; norm_num
  have m1 : (2/1000 : ℚ) ∈ acceptable_timedivs := by norm_num [acceptable_timedivs]
  have m2 : (10 : ℚ) ∈ acceptable_timedivs := by norm_num [acceptable_timedivs]
  refine ⟨h1, m1, fun self s => ?_, h2, m2, fun self s => ?_⟩
  · simp only [TDS3000.set_timediv, h1, if_pos m1]
  · simp only [TDS3000.set_timediv, h2, if_pos m2]

end Wanglib

namespace Wanglib

/-- C5: for every CURV? reply whose first (single-byte) read yields a
byte other than `#`, `get_curve` raises an `InstrumentError` naming the
offending byte, and performs no further bus reads before raising: the
rest of the response stays unread on the bus and no preamble query is
logged. -/
theorem curve_unknown_first_byte
    (inp rest : List Char) (resp : String → List Char) (askR : String → String)
    (w a : List String) (c : Char)
    (hresp : resp "CURV?" = c :: rest) (hc : c ≠ '#') (self : TDS3000) :
    TDS3000.get_curve self ⟨inp, resp, askR, false, w, a⟩ =
      (.error (.instrumentError ("Unknown first byte: " ++ String.mk [c])),
       ⟨rest, resp, askR, false, w ++ ["CURV?"], a⟩, self) := by
  have hne : String.mk [c] ≠ "#" := by
    intro h
    exact hc (by injection congrArg String.data h)
  simp [TDS3000.get_curve, Bus.readall, Bus.write, Bus.read, hresp, hne]

/-- Witness for C5 at the byte `X`: the error names `X`, the trailing
response byte stays on the bus, and no preamble query was issued. -/
theorem curve_unknown_first_byte_witness :
    ('X' : Char) ≠ '#' ∧
    TDS3000.get_curve (TDS3000.init 0)
      ⟨[], (fun c => if c = "CURV?" then ['X', '\n'] else []), (fun _ => ""),
       false, [], []⟩ =
      (.error (.instrumentError ("Unknown first byte: " ++ "X")),
       ⟨['\n'], (fun c => if c = "CURV?" then ['X', '\n'] else []), (fun _ => ""),
        false, ["CURV?"], []⟩, TDS3000.init 0) := by
  refine ⟨by decide, ?_⟩
  refine (curve_unknown_first_byte _ _ _ _ _ _ _ rfl (by decide) _).trans ?_
  rfl

/-- C6: `get_curve` derives the decoding format from the three live
preamble values: big-endian iff BYT_OR = "MSB", signed iff
BN_FMT = "RI", width from the BYT_NR string; and for a non-palindromic
byte pair the big-endian (MSB) and little-endian (non-MSB) decodings
differ. -/
theorem curve_format_derivation
    (inp : List Char) (resp : String → List Char) (askR : String → String)
    (w a : List String) (b0 b1 : Char) (o f : String)
    (hresp : resp "CURV?" = ['#', '1', '2', b0, b1, '\n'])
    (ho : pyRstrip (askR "WFMP:BYT_OR?") = o)
    (hf : pyRstrip (askR "WFMP:BN_FMT?") = f)
    (hn : pyRstrip (askR "WFMP:BYT_NR?") = "2")
    (self : TDS3000) :
    TDS3000.get_curve self ⟨inp, resp, askR, false, w, a⟩ =
      (.ok [decodeSample (decide (o = "MSB")) (decide (f = "RI")) 2 [b0, b1]],
       ⟨[], resp, askR, false, w ++ ["CURV?"],
        a ++ ["WFMP:BYT_OR?", "WFMP:BN_FMT?", "WFMP:BYT_NR?"]⟩, self) ∧
    (∀ (sg : Bool) (x y : Char), x.toNat < 256 → y.toNat < 256 → x ≠ y →
      decodeSample true sg 2 [x, y] ≠ decodeSample false sg 2 [x, y]) := by
  constructor
  · simp [TDS3000.get_curve, Bus.readall, Bus.write, Bus.read, Bus.readN, Bus.ask,
      TDS3000.decodeWithPreamble, Wfmpre.getitem, decodeCurve, dtypeWidth, pyInt,
      digitsVal, isPySpace, chunksOf, hresp, ho, hf, hn]
  · intro sg x y hx hy hxy
    have hnat : x.toNat ≠ y.toNat := fun h => hxy (char_toNat_inj h)
    unfold decodeSample bytesBE toSigned
    cases sg <;> simp only [List.reverse_cons, List.reverse_nil, List.nil_append,
      List.cons_append, List.foldl] <;> split_ifs <;> omega

/-- Witness for C6: a concrete MSB/RI/2 bus whose 2-byte payload 1,2
decodes big-endian-signed, plus the decode-difference fact. -/
theorem curve_format_derivation_witness :
    (TDS3000.get_curve (TDS3000.init 0)
      ⟨[],
       (fun c => if c = "CURV?" then ['#', '1', '2', Char.ofNat 1, Char.ofNat 2, '\n']
        else []),
       (fun q => if q = "WFMP:BYT_OR?" then "MSB"
                 else if q = "WFMP:BN_FMT?" then "RI"
                 else if q = "WFMP:BYT_NR?" then "2" else ""),
       false, [], []⟩ =
      (.ok [decodeSample true true 2 [Char.ofNat 1, Char.ofNat 2]],
       ⟨[],
        (fun c => if c = "CURV?" then ['#', '1', '2', Char.ofNat 1, Char.ofNat 2, '\n']
         else []),
        (fun q => if q = "WFMP:BYT_OR?" then "MSB"
                  else if q = "WFMP:BN_FMT?" then "RI"
                  else if q = "WFMP:BYT_NR?" then "2" else ""),
        false, ["CURV?"],
        ["WFMP:BYT_OR?", "WFMP:BN_FMT?", "WFMP:BYT_NR?"]⟩, TDS3000.init 0)) ∧
    (∀ (sg : Bool) (x y : Char), x.toNat < 256 → y.toNat < 256 → x ≠ y →
      decodeSample true sg 2 [x, y] ≠ decodeSample false sg 2 [x, y]) := by
  have h := curve_format_derivation []
    (fun c => if c = "CURV?" then ['#', '1', '2', Char.ofNat 1, Char.ofNat 2, '\n']
     else [])
    (fun q => if q = "WFMP:BYT_OR?" then "MSB"
              else if q = "WFMP:BN_FMT?" then "RI"
              else if q = "WFMP:BYT_NR?" then "2" else "")
    [] [] (Char.ofNat 1) (Char.ofNat 2) "MSB" "RI" rfl rfl rfl rfl (TDS3000.init 0)
  exact ⟨h.1.trans (by rfl), h.2⟩

end Wanglib

namespace Wanglib

/-- C7: each access to the waveform-preamble mapping at key `k` sends
exactly one bus query `WFMP:<k>?`, returns the response with trailing
whitespace stripped, and stores nothing (the preamble object is
unchanged); a second access to the same key issues a fresh live query
(two queries end up in the log). -/
theorem wfmpre_live_query (pre : Wfmpre) (s : Bus) (k : String) :
    Wfmpre.getitem pre s k =
      (pyRstrip (s.askResp ("WFMP:" ++ k ++ "?")),
       { s with asks := s.asks ++ ["WFMP:" ++ k ++ "?"] }, pre) ∧
    ((Wfmpre.getitem pre { s with asks := s.asks ++ ["WFMP:" ++ k ++ "?"] } k).2.1).asks =
      s.asks ++ ["WFMP:" ++ k ++ "?", "WFMP:" ++ k ++ "?"] := by
  constructor
  · rfl
  · simp [Wfmpre.getitem, Bus.ask]

/-- C8: for every bus whose response to the `HOR:MAI:SCA?` query parses
as a float, `get_timediv` sends exactly that query and returns the
parsed value; everything else on the bus is untouched. -/
theorem get_timediv_float
    (inp : List Char) (resp : String → List Char) (askR : String → String)
    (ra : Bool) (w a : List String) (r : String) (q : ℚ)
    (hr : askR "HOR:MAI:SCA?" = r) (hq : pyFloat (pyRstrip r) = some q)
    (self : TDS3000) :
    TDS3000.get_timediv self ⟨inp, resp, askR, ra, w, a⟩ =
      (.ok q, ⟨inp, resp, askR, ra, w, a ++ ["HOR:MAI:SCA?"]⟩, self) := by
  simp [TDS3000.get_timediv, Bus.ask, hr, hq]

/-- Witness for C8: a bus answering `1.0000E-3\n` yields the value
1/1000 = 0.001. -/
theorem get_timediv_float_witness :
    pyFloat (pyRstrip "1.0000E-3\n") = some (1/1000 : ℚ) ∧
    TDS3000.get_timediv (TDS3000.init 0)
      ⟨[], (fun _ => []),
       (fun c => if c = "HOR:MAI:SCA?" then "1.0000E-3\n" else ""), false, [], []⟩ =
      (.ok (1/1000 : ℚ),
       ⟨[], (fun _ => []),
        (fun c => if c = "HOR:MAI:SCA?" then "1.0000E-3\n" else ""), false, [],
        ["HOR:MAI:SCA?"]⟩, TDS3000.init 0) := by
  have hq : pyFloat (pyRstrip "1.0000E-3\n") = some (1/1000 : ℚ) := by
    have hp : pyFloat (pyRstrip "1.0000E-3\n") =
        some (pyFloatVal false ['1'] ['0', '0', '0', '0'] (-3)) := rfl
    rw [hp]
    have d1 : digitsNat ['1'] = 1 := rfl
    have d0 : digitsNat ['0', '0', '0', '0'] = 0 := rfl
    simp only [pyFloatVal, d1, d0, List.length]
    norm_num
  refine ⟨hq, ?_⟩
  refine (get_timediv_float _ _ _ _ _ _ _ _ rfl hq _).trans ?_
  rfl

/-- C9: when the initial read after CURV? returns a whole string of
length other than one (the GPIB single-call read), `get_curve` raises no
malformed-response error and hands the entire string — block-header
characters and trailing newline included — to the numeric decoder as raw
sample data; moreover the decoder itself never produces an
`InstrumentError`. -/
theorem curve_gpib_raw_passthrough
    (inp L : List Char) (resp : String → List Char) (askR : String → String)
    (w a : List String) (o f n : String)
    (hresp : resp "CURV?" = L) (hlen : L.length ≠ 1)
    (ho : pyRstrip (askR "WFMP:BYT_OR?") = o)
    (hf : pyRstrip (askR "WFMP:BN_FMT?") = f)
    (hn : pyRstrip (askR "WFMP:BYT_NR?") = n)
    (self : TDS3000) :
    TDS3000.get_curve self ⟨inp, resp, askR, true, w, a⟩ =
      (decodeCurve o f n (String.mk L),
       ⟨[], resp, askR, true, w ++ ["CURV?"],
        a ++ ["WFMP:BYT_OR?", "WFMP:BN_FMT?", "WFMP:BYT_NR?"]⟩, self) ∧
    (∀ (o2 f2 n2 d msg : String), decodeCurve o2 f2 n2 d ≠ .error (.instrumentError msg)) := by
  constructor
  · have hne : String.mk L ≠ "#" := by
      intro h
      apply hlen
      have hL : L = ['#'] := congrArg String.data h
      simp [hL]
    simp [TDS3000.get_curve, Bus.readall, Bus.write, Bus.read, Bus.ask,
      TDS3000.decodeWithPreamble, Wfmpre.getitem, hresp, hne, hlen, ho, hf, hn,
      String.length]
  · intro o2 f2 n2 d msg
    unfold decodeCurve
    rcases dtypeWidth n2 with _ | w2
    · simp
    · simp only []
      split <;> simp

/-- Witness for C9: a GPIB-mode bus returning the whole 8-byte response
in one read; the untouched string (header and newline included) goes to
the decoder. -/
theorem curve_gpib_raw_passthrough_witness :
    (TDS3000.get_curve (TDS3000.init 0)
      ⟨[],
       (fun c => if c = "CURV?" then ['#', '1', '4', 'A', 'B', 'C', 'D', '\n'] else []),
       (fun q => if q = "WFMP:BYT_OR?" then "MSB"
                 else if q = "WFMP:BN_FMT?" then "RI"
                 else if q = "WFMP:BYT_NR?" then "2" else ""),
       true, [], []⟩ =
      (decodeCurve "MSB" "RI" "2" (String.mk ['#', '1', '4', 'A', 'B', 'C', 'D', '\n']),
       ⟨[],
        (fun c => if c = "CURV?" then ['#', '1', '4', 'A', 'B', 'C', 'D', '\n'] else []),
        (fun q => if q = "WFMP:BYT_OR?" then "MSB"
                  else if q = "WFMP:BN_FMT?" then "RI"
                  else if q = "WFMP:BYT_NR?" then "2" else ""),
        true, ["CURV?"],
        ["WFMP:BYT_OR?", "WFMP:BN_FMT?", "WFMP:BYT_NR?"]⟩, TDS3000.init 0)) ∧
    (∀ (o2 f2 n2 d msg : String), decodeCurve o2 f2 n2 d ≠ .error (.instrumentError msg)) := by
  have h := curve_gpib_raw_passthrough [] ['#', '1', '4', 'A', 'B', 'C', 'D', '\n']
    (fun c => if c = "CURV?" then ['#', '1', '4', 'A', 'B', 'C', 'D', '\n'] else [])
    (fun q => if q = "WFMP:BYT_OR?" then "MSB"
              else if q = "WFMP:BN_FMT?" then "RI"
              else if q = "WFMP:BYT_NR?" then "2" else "")
    [] [] "MSB" "RI" "2" rfl (by decide) rfl rfl rfl (TDS3000.init 0)
  exact ⟨h.1.trans (by rfl), h.2⟩

/-- C10: every driver operation returns the driver object (and, for the
preamble view, the preamble object) unchanged, whether it succeeds or
raises: the bus reference and preamble view established at construction
are never reassigned. -/
theorem driver_state_unchanged (self : TDS3000) (pre : Wfmpre) (s : Bus) (q : ℚ)
    (k : String) :
    (TDS3000.get_curve self s).2.2 = self ∧
    (TDS3000.get_timediv self s).2.2 = self ∧
    (TDS3000.set_timediv self q s).2.2 = self ∧
    (Wfmpre.getitem pre s k).2.2 = pre := by
  refine ⟨?_, ?_, ?_, rfl⟩
  · simp only [TDS3000.get_curve, Bus.read, TDS3000.decodeWithPreamble, Wfmpre.getitem,
      Bus.ask]
    split <;> (repeat' split) <;> rfl
  · simp only [TDS3000.get_timediv, Bus.ask]
    split <;> rfl
  · simp only [TDS3000.set_timediv]
    split <;> rfl

end Wanglib
